import Mathlib

/-!
# Gaffer: AttributeVisualiser and CompoundNodule

A shallow embedding of `src/GafferScene/AttributeVisualiser.cpp` and of
`src/GafferUI/CompoundNodule.cpp`, with the properties of these two classes
established on the embedding.

Conventions of the embedding.

* `float` and `double` values are kept abstract: the types `F` and `D` are
  parameters, and the float operations the code performs (subtraction,
  division, the conversions to `float`) are fields of `Env`. Nothing is assumed
  about them unless a theorem says so.
* Library functions whose code is not part of the two files (`Object::hash`,
  `tbb_hasher`, `Imath::Rand32`, spline evaluation, `GraphComponent::isAncestorOf`,
  `SceneElementProcessor::affects`, `Nodule::create`, `affectedByChange`) are
  parameters as well. They are taken to return a value: an exception is one the
  two files throw themselves.
* A thrown `IECore::Exception` is the `error` case of `Except String`.
* The members of a `CompoundObject` are a map from names to objects, kept as an
  association list without repeated names; the order of its entries has no
  meaning.
-/

namespace IECore

/-- The three channels of an `Imath::Color3f`. -/
structure Color3 (F : Type) where
  x : F
  y : F
  z : F

/-- The objects the two classes look at. `IECore::Object` is an open class
hierarchy; the types the code tells apart have a constructor each, every other
type is `other`, carrying its `typeName()` and an encoding of its content.
The members of an `ObjectVector` may be null. -/
inductive Object (F D : Type) : Type where
  | floatData (v : F)
  | doubleData (v : D)
  | intData (v : Int)
  | boolData (v : Bool)
  | stringData (v : String)
  | color3fData (v : Color3 F)
  | shader (name : String) (type : String)
      (parameters : List (String × Object F D)) (blindData : List (String × Object F D))
  | objectVector (members : List (Option (Object F D)))
  | other (typeName : String) (content : Nat)

/-- The map of a `CompoundObject`: names to objects, every name at most once. -/
abbrev CompoundObject (F D : Type) : Type := AList (fun _ : String => Object F D)

variable {F D : Type}

/-- The name `Object::typeName()` gives. -/
def Object.typeName : Object F D → String
  | .floatData _ => "FloatData"
  | .doubleData _ => "DoubleData"
  | .intData _ => "IntData"
  | .boolData _ => "BoolData"
  | .stringData _ => "StringData"
  | .color3fData _ => "Color3fData"
  | .shader _ _ _ _ => "Shader"
  | .objectVector _ => "ObjectVector"
  | .other n _ => n

/-- The call `runTimeCast<const Shader>( o )` on a pointer that may be null: the
shader's name, type, parameters and blind data when the object is a `Shader`. -/
def runTimeCastShader :
    Option (Object F D) →
      Option (String × String × List (String × Object F D) × List (String × Object F D))
  | some (.shader n t ps bd) => some (n, t, ps, bd)
  | _ => none

/-- The call `CompoundData::member<const Color3fData>( name )`: the colour when the
map has a member of that name which is a `Color3fData`. -/
def memberColor3fData (m : List (String × Object F D)) (name : String) : Option (Color3 F) :=
  match m.lookup name with
  | some (.color3fData c) => some c
  | _ => none

/-- The call `CompoundObject::member<Object>( name )`. -/
def member (m : CompoundObject F D) (name : String) : Option (Object F D) :=
  m.lookup name

end IECore

namespace GafferScene

open IECore

/-- The enum `AttributeVisualiser::Mode`. Its declaration is in
`AttributeVisualiser.h`; the source names these four enumerators and bounds the
mode plug by `Color` and `ShaderNodeColor`. -/
inductive Mode where
  | Color
  | FalseColor
  | Random
  | ShaderNodeColor
  deriving DecidableEq, Repr

/-- The integer value of an enumerator, in declaration order. -/
def Mode.toInt : Mode → Int
  | .Color => 0
  | .FalseColor => 1
  | .Random => 2
  | .ShaderNodeColor => 3

/-- What the code takes from outside the file: float arithmetic, the object
hash, the random number generator and spline evaluation. -/
structure Env (F D H R S : Type) where
  /-- The literal `0.0f`. -/
  zero : F
  /-- The literal `1.0f`. -/
  one : F
  /-- Subtraction of floats. -/
  sub : F → F → F
  /-- Division of floats. -/
  div : F → F → F
  /-- Conversion `double` to `float`. -/
  ofDouble : D → F
  /-- Conversion `int` to `float`. -/
  ofInt : Int → F
  /-- The function `Object::hash()`. -/
  hash : Object F D → H
  /-- The function `tbb_hasher` on a `MurmurHash`. -/
  tbb_hasher : H → Nat
  /-- The constructor `Rand32( seed )`. -/
  rand32 : Nat → R
  /-- The method `Rand32::nextf()`: the float drawn and the generator after it. -/
  nextf : R → F × R
  /-- Evaluation `ramp( t )` of a `SplinefColor3f`. -/
  spline : S → F → Color3 F

/-- The values `getValue()` gives for the eight plugs of the node. -/
structure PlugValues (F S : Type) where
  attributeName : String
  mode : Mode
  min : F
  max : F
  ramp : S
  shaderType : String
  shaderName : String
  shaderParameter : String

/-- A scene path: a vector of names. -/
abbrev ScenePath : Type := List String

/-- A `Gaffer::Context`: the entries it holds. -/
structure Context where
  entries : List (String × String)

variable {F D H R S : Type}

/-- The constructor `Color3f( a )`: all three channels are `a`. -/
def color3f (a : F) : Color3 F := ⟨a, a, a⟩

/-- Conversion `bool` to `float`. -/
def ofBool (env : Env F D H R S) (b : Bool) : F :=
  if b then env.one else env.zero

/-- Channelwise `( color - min ) / ( max - min )`. -/
def normalise (env : Env F D H R S) (color min max : Color3 F) : Color3 F :=
  ⟨env.div (env.sub color.x min.x) (env.sub max.x min.x),
   env.div (env.sub color.y min.y) (env.sub max.y min.y),
   env.div (env.sub color.z min.z) (env.sub max.z min.z)⟩

/-- The branch `mode == Random`: three draws from a generator seeded with the
hash of the attribute. -/
def randomColor (env : Env F D H R S) (attr : Object F D) : Color3 F :=
  let r := env.rand32 (env.tbb_hasher (env.hash attr))
  let d0 := env.nextf r
  let d1 := env.nextf d0.2
  let d2 := env.nextf d1.2
  ⟨d0.1, d1.1, d2.1⟩

/-- The branch `mode == ShaderNodeColor`. -/
def shaderNodeColor (env : Env F D H R S) (attr : Object F D) : Color3 F :=
  let color := color3f env.zero
  let shader := runTimeCastShader (some attr)
  let shader :=
    match shader with
    | some s => some s
    | none =>
      match attr with
      | .objectVector members =>
        match members with
        | m :: _ => runTimeCastShader m
        | [] => none
      | _ => none
  match shader with
  | some (_, _, _, blindData) =>
    match memberColor3fData blindData "gaffer:nodeColor" with
    | some c => c
    | none => color
  | none => color

/-- The branch for `Color` and `FalseColor`: the switch on `typeId()`, the
normalisation and the ramp. -/
def valueColor (env : Env F D H R S) (plugs : PlugValues F S) (attr : Object F D) :
    Except String (Color3 F) := do
  let color ←
    match attr with
    | .floatData v => pure (color3f v)
    | .doubleData v => pure (color3f (env.ofDouble v))
    | .intData v => pure (color3f (env.ofInt v))
    | .boolData v => pure (color3f (ofBool env v))
    | a => throw ("Unsupported attribute data type \"" ++ a.typeName ++ "\"")
  let min := color3f plugs.min
  let max := color3f plugs.max
  let color := normalise env color min max
  if plugs.mode = Mode.FalseColor then
    pure (env.spline plugs.ramp color.x)
  else
    pure color

/-- The part "Compute our colour" of `computeProcessedAttributes`. -/
def computeColor (env : Env F D H R S) (plugs : PlugValues F S) (attr : Object F D) :
    Except String (Color3 F) :=
  if plugs.mode = Mode.Random then
    pure (randomColor env attr)
  else if plugs.mode = Mode.ShaderNodeColor then
    pure (shaderNodeColor env attr)
  else
    valueColor env plugs attr

/-- The shader made by `new Shader( shaderName, shaderType )` followed by
`parameters()[shaderParameter] = new Color3fData( color )`. -/
def colorShader (plugs : PlugValues F S) (color : Color3 F) : Object F D :=
  .shader plugs.shaderName plugs.shaderType [(plugs.shaderParameter, .color3fData color)] []

/-- The method `AttributeVisualiser::computeProcessedAttributes`. -/
def computeProcessedAttributes (env : Env F D H R S) (plugs : PlugValues F S)
    (_path : ScenePath) (_context : Context) (inputAttributes : CompoundObject F D) :
    Except String (CompoundObject F D) :=
  let attributeName := plugs.attributeName
  if attributeName.length = 0 then
    pure inputAttributes
  else
    let shaderType := plugs.shaderType
    if shaderType.length = 0 then
      pure inputAttributes
    else
      let attr := member inputAttributes attributeName
      if attr.isNone ∧ (member inputAttributes shaderType).isNone then
        pure inputAttributes
      else
        let result := inputAttributes
        match attr with
        | none => pure (result.erase shaderType)
        | some attr => do
          let color ← computeColor env plugs attr
          pure (result.insert shaderType (colorShader plugs color))

/-- The plugs of an `AttributeVisualiser` node that `affects` names, with the
two functions it calls: `GraphComponent::isAncestorOf` and the `affects` of the
base class, which receives the output container by reference. -/
structure Node (P : Type) where
  attributeNamePlug : P
  modePlug : P
  minPlug : P
  maxPlug : P
  rampPlug : P
  shaderTypePlug : P
  shaderNamePlug : P
  shaderParameterPlug : P
  /-- The plug `outPlug()->attributesPlug()`. -/
  outAttributesPlug : P
  /-- The test `a->isAncestorOf( b )`. -/
  isAncestorOf : P → P → Bool
  /-- The method `SceneElementProcessor::affects( input, outputs )`. -/
  baseAffects : P → List P → List P

/-- The method `AttributeVisualiser::affects`: the output container after the call. -/
def affects {P : Type} [DecidableEq P] (node : Node P) (input : P) (outputs : List P) :
    List P :=
  let outputs := node.baseAffects input outputs
  if input = node.attributeNamePlug ∨
      input = node.modePlug ∨
      input = node.minPlug ∨
      input = node.maxPlug ∨
      input = node.shaderTypePlug ∨
      input = node.shaderNamePlug ∨
      input = node.shaderParameterPlug ∨
      node.isAncestorOf node.rampPlug input = true then
    outputs ++ [node.outAttributesPlug]
  else
    outputs

/-- A value appended to a hash by `Plug::hash( h )`. -/
inductive HashedValue (F S : Type) : Type where
  | string (v : String)
  | int (v : Int)
  | float (v : F)
  | spline (v : S)

/-- An `IECore::MurmurHash` that plug values are appended to, kept as the
sequence of the values appended: two such hashes are equal exactly when the
same values were appended in the same order. -/
abbrev MurmurHash (F S : Type) : Type := List (HashedValue F S)

/-- The method `AttributeVisualiser::hashProcessedAttributes`: the hash `h` after
the call. -/
def hashProcessedAttributes (plugs : PlugValues F S) (_path : ScenePath) (_context : Context)
    (h : MurmurHash F S) : MurmurHash F S :=
  let h := h ++ [HashedValue.string plugs.attributeName]
  let h := h ++ [HashedValue.int plugs.mode.toInt]
  let h := h ++ [HashedValue.float plugs.min]
  let h := h ++ [HashedValue.float plugs.max]
  let h := h ++ [HashedValue.spline plugs.ramp]
  let h := h ++ [HashedValue.string plugs.shaderType]
  let h := h ++ [HashedValue.string plugs.shaderName]
  let h := h ++ [HashedValue.string plugs.shaderParameter]
  h

end GafferScene

namespace GafferUI

open IECore

/-- The enum `LinearContainer::Orientation`, declared in `LinearContainer.h`. -/
inductive Orientation where
  | InvalidOrientation
  | X
  | Y
  | Z
  deriving DecidableEq, Repr

/-- The enum `LinearContainer::Direction`, declared in `LinearContainer.h`. -/
inductive Direction where
  | InvalidDirection
  | Increasing
  | Decreasing
  deriving DecidableEq, Repr

/-- The metadata registered for the plug of the nodule: the value under each key,
if any. -/
abbrev PlugMetadata (F D : Type) : Type := String → Option (Object F D)

variable {F D : Type}

/-- The call `Metadata::value<StringData>( plug, key )`: the string when a value
is registered under the key and is a `StringData`, null otherwise. -/
def valueStringData (metadata : PlugMetadata F D) (key : String) : Option String :=
  match metadata key with
  | some (.stringData s) => some s
  | _ => none

/-- The call `Metadata::value<FloatData>( plug, key )`. -/
def valueFloatData (metadata : PlugMetadata F D) (key : String) : Option F :=
  match metadata key with
  | some (.floatData v) => some v
  | _ => none

/-- The key `g_orientationKey`. -/
def g_orientationKey : String := "compoundNodule:orientation"

/-- The key `g_spacingKey`. -/
def g_spacingKey : String := "compoundNodule:spacing"

/-- The key `g_directionKey`. -/
def g_directionKey : String := "compoundNodule:direction"

/-- The function `orientationMetadata( plug, defaultValue )`. -/
def orientationMetadata (metadata : PlugMetadata F D) (defaultValue : Orientation) :
    Orientation :=
  match valueStringData metadata g_orientationKey with
  | none => defaultValue
  | some orientationData =>
    if orientationData = "x" then
      Orientation.X
    else if orientationData = "y" then
      Orientation.Y
    else
      Orientation.Z

/-- The function `spacingMetadata( plug, defaultValue )`. -/
def spacingMetadata (metadata : PlugMetadata F D) (defaultValue : F) : F :=
  match valueFloatData metadata g_spacingKey with
  | some spacingData => spacingData
  | none => defaultValue

/-- The function `directionMetadata( plug, defaultValue )`. -/
def directionMetadata (metadata : PlugMetadata F D) (defaultValue : Direction) : Direction :=
  match valueStringData metadata g_directionKey with
  | none => defaultValue
  | some directionData =>
    if directionData = "increasing" then Direction.Increasing else Direction.Decreasing

/-- The enum `LinearContainer::Alignment`, declared in `LinearContainer.h`. -/
inductive Alignment where
  | InvalidAlignment
  | Min
  | Centre
  | Max
  deriving DecidableEq, Repr

/-- A `Gaffer::GraphComponent` as the child signals hand it over: a plug, or a
component of another type. -/
inductive GraphComponent (P : Type) : Type where
  | plug (p : P)
  | other (name : String)

/-- The call `IECore::runTimeCast<Gaffer::Plug>( child )`. -/
def runTimeCastPlug {P : Type} : GraphComponent P → Option P
  | .plug p => some p
  | .other _ => none

/-- A `Nodule`: the plug `Nodule::plug()` gives, and whatever else the nodule
holds. -/
structure Nodule (P N : Type) where
  plug : P
  content : N

/-- Modelled from the spec: the class `LinearContainer` of `LinearContainer.h` is
not among the sources. The row is what its constructor is given (name,
orientation, alignment, spacing, direction) and the nodules added to it, in the
order they were added. -/
structure LinearContainer (F P N : Type) where
  name : String
  orientation : Orientation
  alignment : Alignment
  spacing : F
  direction : Direction
  children : List (Nodule P N)

variable {P N : Type}

/-- Modelled from the spec: `LinearContainer::setOrientation`, not among the
sources, stores the orientation of the row. -/
def LinearContainer.setOrientation (row : LinearContainer F P N) (orientation : Orientation) :
    LinearContainer F P N :=
  { row with orientation := orientation }

/-- Modelled from the spec: `LinearContainer::getOrientation`, not among the
sources, gives the orientation of the row. -/
def LinearContainer.getOrientation (row : LinearContainer F P N) : Orientation :=
  row.orientation

/-- Modelled from the spec: `LinearContainer::setSpacing`, not among the sources,
stores the spacing of the row. -/
def LinearContainer.setSpacing (row : LinearContainer F P N) (spacing : F) :
    LinearContainer F P N :=
  { row with spacing := spacing }

/-- Modelled from the spec: `LinearContainer::setDirection`, not among the
sources, stores the direction of the row. -/
def LinearContainer.setDirection (row : LinearContainer F P N) (direction : Direction) :
    LinearContainer F P N :=
  { row with direction := direction }

/-- Modelled from the spec: `GraphComponent::addChild`, not among the sources,
puts the nodule after the children the row has. -/
def LinearContainer.addChild (row : LinearContainer F P N) (nodule : Nodule P N) :
    LinearContainer F P N :=
  { row with children := row.children ++ [nodule] }

/-- What `CompoundNodule.cpp` takes from outside the file. -/
structure UIEnv (F P N : Type) where
  /-- The literal `0` as a `float`. -/
  zero : F
  /-- The call `Nodule::create( plug )`: a nodule, or null. -/
  create : P → Option (Nodule P N)
  /-- The call `affectedByChange( plug, nodeTypeId, plugPath, changedPlug )` of
  `MetadataAlgo.h`; the changed plug may be null. -/
  affectedByChange : P → Nat → String → Option P → Bool

/-- A `CompoundNodule`: the plug it was made for and its row. -/
structure CompoundNodule (F P N : Type) where
  plug : P
  m_row : LinearContainer F P N

/-- The loop of the constructor over the child plugs: a nodule is made for each
and added to the row unless it is null. -/
def addNodules (env : UIEnv F P N) :
    LinearContainer F P N → List P → LinearContainer F P N
  | row, [] => row
  | row, child :: rest =>
    match env.create child with
    | some nodule => addNodules env (row.addChild nodule) rest
    | none => addNodules env row rest

/-- The constructor `CompoundNodule::CompoundNodule( plug, orientation, spacing,
direction )`; `children` are the child plugs of `plug`, in order, and `metadata`
is the metadata of `plug`. -/
def CompoundNodule.new (env : UIEnv F P N) (metadata : PlugMetadata F D) (plug : P)
    (children : List P) (orientation : Orientation) (spacing : F) (direction : Direction) :
    CompoundNodule F P N :=
  let orientation := orientationMetadata metadata orientation
  let spacing := spacingMetadata metadata spacing
  let direction := directionMetadata metadata direction
  let direction :=
    if direction = Direction.InvalidDirection then
      if orientation = Orientation.X then Direction.Increasing else Direction.Decreasing
    else
      direction
  let m_row : LinearContainer F P N :=
    ⟨"row", orientation, Alignment.Centre, spacing, direction, []⟩
  let m_row := addNodules env m_row children
  ⟨plug, m_row⟩

/-- The loop of `CompoundNodule::nodule`: the first nodule of the row whose plug
is the given one, or null. -/
def firstNodule [DecidableEq P] (plug : P) : List (Nodule P N) → Option (Nodule P N)
  | [] => none
  | nodule :: rest => if nodule.plug = plug then some nodule else firstNodule plug rest

/-- The method `CompoundNodule::nodule( plug )`. -/
def CompoundNodule.nodule [DecidableEq P] (self : CompoundNodule F P N) (plug : P) :
    Option (Nodule P N) :=
  firstNodule plug self.m_row.children

/-- The method `CompoundNodule::childAdded( parent, child )`. -/
def CompoundNodule.childAdded [DecidableEq P] (env : UIEnv F P N)
    (self : CompoundNodule F P N) (_parent child : GraphComponent P) :
    CompoundNodule F P N :=
  match runTimeCastPlug child with
  | none => self
  | some plug =>
    if (self.nodule plug).isSome then
      self
    else
      match env.create plug with
      | some nodule => { self with m_row := self.m_row.addChild nodule }
      | none => self

/-- The loop of `CompoundNodule::childRemoved`: the first nodule whose plug is the
given one is removed from the children of the row, and the loop ends. -/
def removeFirstNodule [DecidableEq P] (plug : P) : List (Nodule P N) → List (Nodule P N)
  | [] => []
  | nodule :: rest =>
    if nodule.plug = plug then rest else nodule :: removeFirstNodule plug rest

/-- The method `CompoundNodule::childRemoved( parent, child )`. -/
def CompoundNodule.childRemoved [DecidableEq P] (self : CompoundNodule F P N)
    (_parent child : GraphComponent P) : CompoundNodule F P N :=
  match runTimeCastPlug child with
  | none => self
  | some plug =>
    { self with
      m_row := { self.m_row with children := removeFirstNodule plug self.m_row.children } }

/-- The method `CompoundNodule::plugMetadataChanged( nodeTypeId, plugPath, key,
plug )`, with `metadata` the metadata of the plug of the nodule at the time of
the call. -/
def CompoundNodule.plugMetadataChanged (env : UIEnv F P N) (metadata : PlugMetadata F D)
    (self : CompoundNodule F P N) (nodeTypeId : Nat) (plugPath : String) (key : String)
    (plug : Option P) : CompoundNodule F P N :=
  if env.affectedByChange self.plug nodeTypeId plugPath plug = false then
    self
  else
    let m_row :=
      if key = g_orientationKey then
        self.m_row.setOrientation (orientationMetadata metadata Orientation.X)
      else if key = g_spacingKey then
        self.m_row.setSpacing (spacingMetadata metadata env.zero)
      else
        self.m_row
    let m_row :=
      if key = g_directionKey ∨ key = g_orientationKey then
        m_row.setDirection
          (directionMetadata metadata
            (if m_row.getOrientation = Orientation.X then Direction.Increasing
             else Direction.Decreasing))
      else
        m_row
    { self with m_row := m_row }

end GafferUI

/-! ## Notions the statements use -/

namespace GafferScene

open IECore

variable {F D H R S : Type}

/-- Whether the type of an object is one of `FloatData`, `DoubleData`, `IntData`,
`BoolData`. -/
def isNumericData : Object F D → Bool
  | .floatData _ => true
  | .doubleData _ => true
  | .intData _ => true
  | .boolData _ => true
  | _ => false

/-- The numeric value of an attribute as a `float`, a `bool` counting as 0 or 1;
none for the other types. -/
def numericValue (env : Env F D H R S) : Object F D → Option F
  | .floatData v => some v
  | .doubleData v => some (env.ofDouble v)
  | .intData v => some (env.ofInt v)
  | .boolData v => some (if v then env.one else env.zero)
  | _ => none

/-- The shader an attribute stands for, given by its blind data: the attribute
itself when it is a `Shader`, otherwise the first member of the attribute when
it is a non-empty `ObjectVector` whose first member is a `Shader`, otherwise none. -/
def shaderBlindDataOf : Object F D → Option (List (String × Object F D))
  | .shader _ _ _ blindData => some blindData
  | .objectVector (some (.shader _ _ _ blindData) :: _) => some blindData
  | _ => none

/-- The node colour of an attribute: the entry `gaffer:nodeColor` of the blind data
of its shader when there is a shader and the entry is a `Color3fData`, black in
every other case. -/
def nodeColorOf (env : Env F D H R S) (attr : Object F D) : Color3 F :=
  match shaderBlindDataOf attr with
  | some blindData =>
    match blindData.lookup "gaffer:nodeColor" with
    | some (.color3fData c) => c
    | _ => ⟨env.zero, env.zero, env.zero⟩
  | none => ⟨env.zero, env.zero, env.zero⟩

/-- The text of the exception raised for an attribute of an unsupported type. -/
def unsupportedMessage (attr : Object F D) : String :=
  "Unsupported attribute data type \"" ++ attr.typeName ++ "\""

end GafferScene

namespace GafferUI

variable {F P N : Type}

/-- The row holds at most one nodule per plug: the plugs of its nodules are
pairwise different. -/
def oneNodulePerPlug (self : CompoundNodule F P N) : Prop :=
  (self.m_row.children.map Nodule.plug).Nodup

end GafferUI

/-! ## Sample instances

Concrete values the theorems below are evaluated at: floats as rationals, a
linear ramp between two colours, plugs named by their path below the node. -/

namespace Sample

open IECore GafferScene GafferUI

/-- A ramp between two colours, evaluated by linear interpolation. -/
def ramp (s : Color3 Rat × Color3 Rat) (t : Rat) : Color3 Rat :=
  ⟨s.1.x + t * (s.2.x - s.1.x), s.1.y + t * (s.2.y - s.1.y), s.1.z + t * (s.2.z - s.1.z)⟩

/-- A stand-in for `Object::hash()`. -/
def objectHash : Object Rat Rat → Nat
  | .intData v => v.toNat
  | .boolData v => if v then 1 else 0
  | .stringData v => v.length
  | .other _ c => c
  | _ => 7

/-- An environment over the rationals. -/
def env : Env Rat Rat Nat Nat (Color3 Rat × Color3 Rat) where
  zero := 0
  one := 1
  sub := fun a b => a - b
  div := fun a b => a / b
  ofDouble := fun d => d
  ofInt := fun i => (i : Rat)
  hash := objectHash
  tbb_hasher := fun h => h
  rand32 := fun seed => seed
  nextf := fun r => ((r : Rat) / 4, r + 1)
  spline := ramp

/-- The plug values a freshly made node has (the ramp going from red to green),
but for the attribute name, which is given. -/
def plugs (attributeName : String) (mode : Mode) : PlugValues Rat (Color3 Rat × Color3 Rat) where
  attributeName := attributeName
  mode := mode
  min := 0
  max := 1
  ramp := (⟨1, 0, 0⟩, ⟨0, 1, 0⟩)
  shaderType := "gl:surface"
  shaderName := "Constant"
  shaderParameter := "Cs"

/-- The same plug values with the range from 2 to 5. -/
def rangedPlugs (attributeName : String) (mode : Mode) :
    PlugValues Rat (Color3 Rat × Color3 Rat) :=
  { plugs attributeName mode with min := 2, max := 5 }

/-- A node whose plugs are named by their path; the base class reports
`out.attributes` for `in.attributes`. -/
def node : Node (List String) where
  attributeNamePlug := ["attributeName"]
  modePlug := ["mode"]
  minPlug := ["min"]
  maxPlug := ["max"]
  rampPlug := ["ramp"]
  shaderTypePlug := ["shaderType"]
  shaderNamePlug := ["shaderName"]
  shaderParameterPlug := ["shaderParameter"]
  outAttributesPlug := ["out", "attributes"]
  isAncestorOf := fun a b => decide (a <+: b ∧ a ≠ b)
  baseAffects := fun input outputs =>
    if input = ["in", "attributes"] then outputs ++ [["out", "attributes"]] else outputs

/-- An empty context. -/
def context : Context := ⟨[]⟩

/-- Attributes with a numeric user attribute only. -/
def density : CompoundObject Rat Rat :=
  AList.singleton "user:density" (Object.intData 3)

/-- A shader carrying the colour of the node that made it. -/
def nodeShader : Object Rat Rat :=
  Object.shader "plastic" "gl:surface" []
    [("gaffer:nodeName", Object.stringData "Plastic1"),
     ("gaffer:nodeColor", Object.color3fData ⟨1 / 2, 1 / 4, 0⟩)]

/-- Attributes with a shader network assigned: a vector of two shaders. -/
def networked : CompoundObject Rat Rat :=
  AList.singleton "gl:surface"
    (Object.objectVector [some nodeShader, some (Object.shader "noise" "gl:shader" [] [])])

/-- Metadata of a plug with one string registered under the orientation key. -/
def orientationOnly (value : String) : PlugMetadata Rat Rat :=
  fun key => if key = "compoundNodule:orientation" then some (Object.stringData value) else none

/-- Metadata of a plug with one string registered under the direction key. -/
def directionOnly (value : String) : PlugMetadata Rat Rat :=
  fun key => if key = "compoundNodule:direction" then some (Object.stringData value) else none

/-- Metadata of a plug with nothing registered. -/
def noMetadata : PlugMetadata Rat Rat := fun _ => none

/-- Nodules are made for every plug but the one named `hidden`; a change of
metadata affects the nodule when it is made on its own plug. -/
def uiEnv : UIEnv Rat String String where
  zero := 0
  create := fun plug => if plug = "hidden" then none else some ⟨plug, "StandardNodule"⟩
  affectedByChange := fun plug _ _ changed => decide (changed = some plug)

/-- A compound nodule for a plug with three children, made without metadata. -/
def compound : CompoundNodule Rat String String :=
  CompoundNodule.new uiEnv noMetadata "in" ["in.a", "hidden", "in.b"] Orientation.Y 1
    Direction.InvalidDirection

/-- Attributes with a shader assigned and a string attribute. -/
def shaded : CompoundObject Rat Rat :=
  AList.insert "gl:surface" (Object.shader "plastic" "gl:surface" [] [])
    (AList.singleton "user:name" (Object.stringData "ball"))

end Sample

/-! ## Properties of AttributeVisualiser -/

namespace GafferScene

open IECore

variable {F D H R S : Type}

theorem length_eq_zero_iff (s : String) : s.length = 0 ↔ s = "" := by
  constructor
  · intro h
    have hd : s.data = [] := List.length_eq_zero.mp h
    exact String.ext hd
  · rintro rfl
    rfl

/-- The result when either name is empty or neither member is there. -/
theorem compute_passthrough (env : Env F D H R S) (plugs : PlugValues F S) (path : ScenePath)
    (context : Context) (a : CompoundObject F D)
    (h : plugs.attributeName = "" ∨ plugs.shaderType = "" ∨
      (member a plugs.attributeName = none ∧ member a plugs.shaderType = none)) :
    computeProcessedAttributes env plugs path context a = Except.ok a := by
  unfold computeProcessedAttributes
  by_cases hn : plugs.attributeName.length = 0
  · simp only [hn, if_true]; rfl
  · by_cases hs : plugs.shaderType.length = 0
    · simp only [hn, hs, if_true, if_false]; rfl
    · rcases h with h | h | ⟨h1, h2⟩
      · exact absurd ((length_eq_zero_iff _).mpr h) hn
      · exact absurd ((length_eq_zero_iff _).mpr h) hs
      · simp only [hn, hs, if_false, h1, h2, Option.isNone_none, and_self, if_true]; rfl

/-- The result when the attribute is missing and a member named shaderType is there. -/
theorem compute_erase (env : Env F D H R S) (plugs : PlugValues F S) (path : ScenePath)
    (context : Context) (a : CompoundObject F D) (v : Object F D)
    (hn : plugs.attributeName ≠ "") (hs : plugs.shaderType ≠ "")
    (ha : member a plugs.attributeName = none) (hv : member a plugs.shaderType = some v) :
    computeProcessedAttributes env plugs path context a =
      Except.ok (a.erase plugs.shaderType) := by
  have hn0 : ¬ plugs.attributeName.length = 0 := fun h => hn ((length_eq_zero_iff _).mp h)
  have hs0 : ¬ plugs.shaderType.length = 0 := fun h => hs ((length_eq_zero_iff _).mp h)
  unfold computeProcessedAttributes
  simp only [hn0, hs0, if_false, ha, hv, Option.isNone_none, Option.isNone_some,
    Bool.false_eq_true, and_false]
  rfl

/-- The result when the attribute is there: the colour is computed and the shader
assigned under shaderType. -/
theorem compute_insert (env : Env F D H R S) (plugs : PlugValues F S) (path : ScenePath)
    (context : Context) (a : CompoundObject F D) (attr : Object F D)
    (hn : plugs.attributeName ≠ "") (hs : plugs.shaderType ≠ "")
    (ha : member a plugs.attributeName = some attr) :
    computeProcessedAttributes env plugs path context a =
      (computeColor env plugs attr).map
        (fun color => a.insert plugs.shaderType (colorShader plugs color)) := by
  have hn0 : ¬ plugs.attributeName.length = 0 := fun h => hn ((length_eq_zero_iff _).mp h)
  have hs0 : ¬ plugs.shaderType.length = 0 := fun h => hs ((length_eq_zero_iff _).mp h)
  unfold computeProcessedAttributes
  simp only [hn0, hs0, if_false, ha, Option.isNone_some, Bool.false_eq_true, false_and]
  cases computeColor env plugs attr <;> rfl

/-- The cases of `computeProcessedAttributes`, by which of its returns is reached. -/
theorem compute_cases (env : Env F D H R S) (plugs : PlugValues F S) (path : ScenePath)
    (context : Context) (a : CompoundObject F D) :
    computeProcessedAttributes env plugs path context a = Except.ok a ∨
    (plugs.attributeName ≠ "" ∧ plugs.shaderType ≠ "" ∧
      member a plugs.attributeName = none ∧
      computeProcessedAttributes env plugs path context a =
        Except.ok (a.erase plugs.shaderType)) ∨
    (plugs.attributeName ≠ "" ∧ plugs.shaderType ≠ "" ∧
      ∃ attr, member a plugs.attributeName = some attr ∧
        computeProcessedAttributes env plugs path context a =
          (computeColor env plugs attr).map
            (fun color => a.insert plugs.shaderType (colorShader plugs color))) := by
  by_cases hn : plugs.attributeName = ""
  · exact Or.inl (compute_passthrough env plugs path context a (Or.inl hn))
  by_cases hs : plugs.shaderType = ""
  · exact Or.inl (compute_passthrough env plugs path context a (Or.inr (Or.inl hs)))
  cases ha : member a plugs.attributeName with
  | some attr =>
    exact Or.inr (Or.inr ⟨hn, hs, attr, rfl, compute_insert env plugs path context a attr hn hs ha⟩)
  | none =>
    cases hv : member a plugs.shaderType with
    | none => exact Or.inl (compute_passthrough env plugs path context a (Or.inr (Or.inr ⟨ha, hv⟩)))
    | some v =>
      exact Or.inr (Or.inl ⟨hn, hs, rfl, compute_erase env plugs path context a v hn hs ha hv⟩)

/-- A member under a name other than shaderType is the same in the result as in
the input. -/
theorem member_of_ne_shaderType (env : Env F D H R S) (plugs : PlugValues F S)
    (path : ScenePath) (context : Context) (a r : CompoundObject F D) (k : String)
    (hr : computeProcessedAttributes env plugs path context a = Except.ok r)
    (hk : k ≠ plugs.shaderType) :
    member r k = member a k := by
  rcases compute_cases env plugs path context a with h | ⟨_, _, _, h⟩ | ⟨_, _, attr, _, h⟩
  · rw [h] at hr
    cases hr
    rfl
  · rw [h] at hr
    cases hr
    exact AList.lookup_erase_ne hk
  · rw [h] at hr
    cases hc : computeColor env plugs attr with
    | error e => rw [hc] at hr; cases hr
    | ok c =>
      rw [hc] at hr
      cases hr
      exact AList.lookup_insert_ne hk

/-- The mode is determined by its integer value. -/
theorem Mode.toInt_injective (m m' : Mode) (h : m.toInt = m'.toInt) : m = m' := by
  cases m <;> cases m' <;> first | rfl | (exact absurd h (by decide))

/-- On a numeric attribute the `Color`/`FalseColor` branch gives the normalised
value, passed through the ramp in `FalseColor` mode. -/
theorem valueColor_numeric (env : Env F D H R S) (plugs : PlugValues F S) (attr : Object F D)
    (v : F) (hv : numericValue env attr = some v) :
    valueColor env plugs attr =
      Except.ok
        (if plugs.mode = Mode.FalseColor then
          env.spline plugs.ramp (env.div (env.sub v plugs.min) (env.sub plugs.max plugs.min))
        else
          color3f (env.div (env.sub v plugs.min) (env.sub plugs.max plugs.min))) := by
  cases attr <;> simp only [numericValue, Option.some.injEq, reduceCtorEq] at hv <;>
    subst hv <;> by_cases hm : plugs.mode = Mode.FalseColor <;>
    simp [valueColor, hm, normalise, color3f, ofBool, bind, Except.bind, pure, Except.pure]

/-- On any other attribute the `Color`/`FalseColor` branch raises. -/
theorem valueColor_unsupported (env : Env F D H R S) (plugs : PlugValues F S)
    (attr : Object F D) (hv : isNumericData attr = false) :
    valueColor env plugs attr = Except.error (unsupportedMessage attr) := by
  cases attr <;> simp only [isNumericData, reduceCtorEq] at hv <;> rfl

/-- The attributes of numeric type are those with a numeric value. -/
theorem isNumericData_iff (env : Env F D H R S) (attr : Object F D) :
    isNumericData attr = true ↔ ∃ v, numericValue env attr = some v := by
  cases attr <;> simp [isNumericData, numericValue]

/-- When the colour computation raises: in `Color` and `FalseColor` modes, on an
attribute that is not numeric, with the message naming its type. -/
theorem computeColor_error_iff (env : Env F D H R S) (plugs : PlugValues F S)
    (attr : Object F D) (e : String) :
    computeColor env plugs attr = Except.error e ↔
      plugs.mode ≠ Mode.Random ∧ plugs.mode ≠ Mode.ShaderNodeColor ∧
        isNumericData attr = false ∧ e = unsupportedMessage attr := by
  unfold computeColor
  by_cases h1 : plugs.mode = Mode.Random
  · simp [h1, pure, Except.pure]
  by_cases h2 : plugs.mode = Mode.ShaderNodeColor
  · simp [h2, pure, Except.pure]
  simp only [h1, h2, if_false, ne_eq, not_false_eq_true, true_and]
  cases hn : isNumericData attr with
  | false =>
    rw [valueColor_unsupported env plugs attr hn]
    simp only [Except.error.injEq, true_and]
    exact eq_comm
  | true =>
    obtain ⟨v, hv⟩ := (isNumericData_iff env attr).mp hn
    rw [valueColor_numeric env plugs attr v hv]
    simp

/-- The `ShaderNodeColor` branch computes the node colour of the attribute. -/
theorem shaderNodeColor_eq (env : Env F D H R S) (attr : Object F D) :
    shaderNodeColor env attr = nodeColorOf env attr := by
  cases attr with
  | shader n t ps bd =>
    simp only [shaderNodeColor, runTimeCastShader, nodeColorOf, shaderBlindDataOf,
      memberColor3fData, color3f]
    cases hl : List.lookup "gaffer:nodeColor" bd with
    | none => rfl
    | some o => cases o <;> rfl
  | objectVector members =>
    cases members with
    | nil => rfl
    | cons m rest =>
      cases m with
      | none => rfl
      | some o =>
        cases o with
        | shader n t ps bd =>
          simp only [shaderNodeColor, runTimeCastShader, nodeColorOf, shaderBlindDataOf,
            memberColor3fData, color3f]
          cases hl : List.lookup "gaffer:nodeColor" bd with
          | none => rfl
          | some o => cases o <;> rfl
        | _ => rfl
  | _ => rfl

/-- C1: `affects` hands the output container to `SceneElementProcessor::affects`
and then appends `out.attributes` to it when the input is one of the plugs
attributeName, mode, min, max, shaderType, shaderName, shaderParameter or has
the ramp plug as an ancestor; for every other input it appends nothing. -/
theorem affects_outAttributes {P : Type} [DecidableEq P] (node : Node P) (input : P)
    (outputs : List P) :
    ((input = node.attributeNamePlug ∨ input = node.modePlug ∨ input = node.minPlug ∨
        input = node.maxPlug ∨ input = node.shaderTypePlug ∨ input = node.shaderNamePlug ∨
        input = node.shaderParameterPlug ∨ node.isAncestorOf node.rampPlug input = true) →
      affects node input outputs =
        node.baseAffects input outputs ++ [node.outAttributesPlug]) ∧
    (¬ (input = node.attributeNamePlug ∨ input = node.modePlug ∨ input = node.minPlug ∨
        input = node.maxPlug ∨ input = node.shaderTypePlug ∨ input = node.shaderNamePlug ∨
        input = node.shaderParameterPlug ∨ node.isAncestorOf node.rampPlug input = true) →
      affects node input outputs = node.baseAffects input outputs) := by
  constructor
  · intro h
    simp only [affects, if_pos h]
  · intro h
    simp only [affects, if_neg h]

/-- Witness for C1: a point of the ramp is reported, the filter plug is not. -/
theorem affects_outAttributes_witness :
    affects Sample.node ["ramp", "p0", "y"] [] = [["out", "attributes"]] ∧
    affects Sample.node ["filter"] [["x"]] = [["x"]] :=
  ⟨(affects_outAttributes Sample.node ["ramp", "p0", "y"] []).1 (by decide),
   (affects_outAttributes Sample.node ["filter"] [["x"]]).2 (by decide)⟩

/-- C2: two runs of `computeProcessedAttributes` on the same input attributes give
the same result or the same error as soon as `hashProcessedAttributes` gives them
the same hash, that is as soon as the eight plug values attributeName, mode, min,
max, ramp, shaderType, shaderName and shaderParameter agree; the scene paths and
the contexts of the two runs may differ. -/
theorem computeProcessedAttributes_hash_contract (env : Env F D H R S)
    (plugs plugs' : PlugValues F S) (path path' : ScenePath) (context context' : Context)
    (h : MurmurHash F S) (a : CompoundObject F D)
    (hh : hashProcessedAttributes plugs path context h =
      hashProcessedAttributes plugs' path' context' h) :
    computeProcessedAttributes env plugs path context a =
      computeProcessedAttributes env plugs' path' context' a := by
  have hp : plugs = plugs' := by
    cases plugs
    cases plugs'
    simp only [hashProcessedAttributes, List.append_assoc, List.append_cancel_left_eq,
      List.cons_append, List.nil_append, List.cons.injEq, HashedValue.string.injEq, HashedValue.int.injEq,
      HashedValue.float.injEq, HashedValue.spline.injEq, and_true] at hh
    have h2 := Mode.toInt_injective _ _ hh.2.1
    have h1 := hh.1
    have h3 := hh.2.2.1
    have h4 := hh.2.2.2.1
    have h5 := hh.2.2.2.2.1
    have h6 := hh.2.2.2.2.2.1
    have h7 := hh.2.2.2.2.2.2.1
    have h8 := hh.2.2.2.2.2.2.2
    subst h1 h2 h3 h4 h5 h6 h7 h8
    rfl
  subst hp
  rfl

/-- Witness for C2: the same plug values under two scene paths and two contexts. -/
theorem computeProcessedAttributes_hash_contract_witness :
    computeProcessedAttributes Sample.env (Sample.plugs "user:density" Mode.FalseColor)
        ["group", "sphere"] Sample.context (AList.singleton "user:density" (Object.intData 3)) =
      computeProcessedAttributes Sample.env (Sample.plugs "user:density" Mode.FalseColor)
        ["plane"] ⟨[("frame", "12")]⟩ (AList.singleton "user:density" (Object.intData 3)) :=
  computeProcessedAttributes_hash_contract Sample.env _ _ ["group", "sphere"] ["plane"]
    Sample.context ⟨[("frame", "12")]⟩ [] _ rfl

/-- Counterexample for C3: with the attribute to visualise missing, the shader the
input has under shaderType is not a member of the result. -/
theorem computeProcessedAttributes_drops_member :
    ∃ r : CompoundObject Rat Rat,
      computeProcessedAttributes Sample.env (Sample.plugs "user:density" Mode.Color) []
        Sample.context Sample.shaded = Except.ok r ∧
      member Sample.shaded "gl:surface" = some (Object.shader "plastic" "gl:surface" [] []) ∧
      member r "gl:surface" = none :=
  ⟨Sample.shaded.erase "gl:surface", rfl, rfl, rfl⟩

/-- C3, amended: whenever `computeProcessedAttributes` returns, every member of the
input attributes whose name is not the shaderType plug value is present in the
result under the same name with the same value. -/
theorem computeProcessedAttributes_keeps_members (env : Env F D H R S)
    (plugs : PlugValues F S) (path : ScenePath) (context : Context)
    (a r : CompoundObject F D) (k : String) (v : Object F D)
    (hr : computeProcessedAttributes env plugs path context a = Except.ok r)
    (hk : k ≠ plugs.shaderType) (hv : member a k = some v) :
    member r k = some v := by
  rw [member_of_ne_shaderType env plugs path context a r k hr hk]
  exact hv

/-- Witness for C3, amended: the string attribute of the shaded sample is kept. -/
theorem computeProcessedAttributes_keeps_members_witness :
    member (Sample.shaded.erase "gl:surface") "user:name" = some (Object.stringData "ball") :=
  computeProcessedAttributes_keeps_members Sample.env (Sample.plugs "user:density" Mode.Color)
    [] Sample.context Sample.shaded (Sample.shaded.erase "gl:surface") "user:name"
    (Object.stringData "ball") rfl (by decide) rfl

/-- C4: `computeProcessedAttributes` returns the input attributes themselves, and
raises nothing, when attributeName is empty, or shaderType is empty, or the input
has neither a member named attributeName nor one named shaderType; whatever the
mode and the other plug values are. -/
theorem computeProcessedAttributes_unchanged (env : Env F D H R S) (plugs : PlugValues F S)
    (path : ScenePath) (context : Context) (a : CompoundObject F D)
    (h : plugs.attributeName = "" ∨ plugs.shaderType = "" ∨
      (member a plugs.attributeName = none ∧ member a plugs.shaderType = none)) :
    computeProcessedAttributes env plugs path context a = Except.ok a :=
  compute_passthrough env plugs path context a h

/-- Witness for C4: an empty shaderType, with a string attribute that Color mode
rejects. -/
theorem computeProcessedAttributes_unchanged_witness :
    computeProcessedAttributes Sample.env
        { Sample.plugs "user:name" Mode.Color with shaderType := "" } ["ball"] Sample.context
        Sample.shaded = Except.ok Sample.shaded :=
  computeProcessedAttributes_unchanged Sample.env
    { Sample.plugs "user:name" Mode.Color with shaderType := "" } ["ball"] Sample.context
    Sample.shaded (Or.inr (Or.inl rfl))

/-- C5: `computeProcessedAttributes` raises an error `e` if and only if attributeName
and shaderType are both non-empty, the mode is neither Random nor ShaderNodeColor,
the input has a member named attributeName whose type is none of FloatData,
DoubleData, IntData, BoolData, and `e` is the text
`Unsupported attribute data type "<type name>"` for the type name of that member.
In every other case it returns an attribute set. -/
theorem computeProcessedAttributes_raises_iff (env : Env F D H R S) (plugs : PlugValues F S)
    (path : ScenePath) (context : Context) (a : CompoundObject F D) :
    (∀ e : String,
      computeProcessedAttributes env plugs path context a = Except.error e ↔
        plugs.attributeName ≠ "" ∧ plugs.shaderType ≠ "" ∧
          plugs.mode ≠ Mode.Random ∧ plugs.mode ≠ Mode.ShaderNodeColor ∧
          ∃ attr, member a plugs.attributeName = some attr ∧ isNumericData attr = false ∧
            e = "Unsupported attribute data type \"" ++ attr.typeName ++ "\"") ∧
    (¬ (plugs.attributeName ≠ "" ∧ plugs.shaderType ≠ "" ∧
          plugs.mode ≠ Mode.Random ∧ plugs.mode ≠ Mode.ShaderNodeColor ∧
          ∃ attr, member a plugs.attributeName = some attr ∧ isNumericData attr = false) →
      ∃ r, computeProcessedAttributes env plugs path context a = Except.ok r) := by
  have key : ∀ e : String,
      computeProcessedAttributes env plugs path context a = Except.error e ↔
        plugs.attributeName ≠ "" ∧ plugs.shaderType ≠ "" ∧
          plugs.mode ≠ Mode.Random ∧ plugs.mode ≠ Mode.ShaderNodeColor ∧
          ∃ attr, member a plugs.attributeName = some attr ∧ isNumericData attr = false ∧
            e = "Unsupported attribute data type \"" ++ attr.typeName ++ "\"" := by
    intro e
    constructor
    · intro he
      rcases compute_cases env plugs path context a with h | ⟨_, _, _, h⟩ | ⟨hn, hs, attr, ha, h⟩
      · rw [h] at he; cases he
      · rw [h] at he; cases he
      · rw [h] at he
        cases hc : computeColor env plugs attr with
        | ok c => rw [hc] at he; cases he
        | error e' =>
          rw [hc] at he
          cases he
          obtain ⟨h1, h2, h3, h4⟩ := (computeColor_error_iff env plugs attr e).mp hc
          exact ⟨hn, hs, h1, h2, attr, ha, h3, h4⟩
    · rintro ⟨hn, hs, h1, h2, attr, ha, h3, h4⟩
      rw [compute_insert env plugs path context a attr hn hs ha,
        (computeColor_error_iff env plugs attr e).mpr ⟨h1, h2, h3, h4⟩]
      rfl
  refine ⟨key, ?_⟩
  intro hnot
  cases hc : computeProcessedAttributes env plugs path context a with
  | ok r => exact ⟨r, rfl⟩
  | error e =>
    obtain ⟨hn, hs, h1, h2, attr, ha, h3, _⟩ := (key e).mp hc
    exact absurd ⟨hn, hs, h1, h2, attr, ha, h3⟩ hnot

/-- Witness for C5: visualising a string attribute in Color mode raises, in Random
mode it does not. -/
theorem computeProcessedAttributes_raises_iff_witness :
    computeProcessedAttributes Sample.env (Sample.plugs "user:name" Mode.Color) ["ball"]
        Sample.context Sample.shaded =
      Except.error "Unsupported attribute data type \"StringData\"" ∧
    ∃ r, computeProcessedAttributes Sample.env (Sample.plugs "user:name" Mode.Random) ["ball"]
        Sample.context Sample.shaded = Except.ok r :=
  ⟨((computeProcessedAttributes_raises_iff Sample.env (Sample.plugs "user:name" Mode.Color)
      ["ball"] Sample.context Sample.shaded).1 _).mpr
      ⟨by decide, by decide, by decide, by decide, Object.stringData "ball", rfl, rfl, rfl⟩,
   (computeProcessedAttributes_raises_iff Sample.env (Sample.plugs "user:name" Mode.Random)
      ["ball"] Sample.context Sample.shaded).2 (fun h => h.2.2.1 rfl)⟩

/-- C6: when attributeName and shaderType are non-empty and the input has no member
named attributeName but one named shaderType, `computeProcessedAttributes` returns
the input with the shaderType member removed: the result has no member named
shaderType, has every other member as the input has it, and has one member
fewer than the input. -/
theorem computeProcessedAttributes_removes_shader (env : Env F D H R S)
    (plugs : PlugValues F S) (path : ScenePath) (context : Context)
    (a : CompoundObject F D) (v : Object F D)
    (hn : plugs.attributeName ≠ "") (hs : plugs.shaderType ≠ "")
    (ha : member a plugs.attributeName = none) (hv : member a plugs.shaderType = some v) :
    ∃ r, computeProcessedAttributes env plugs path context a = Except.ok r ∧
      r = a.erase plugs.shaderType ∧
      member r plugs.shaderType = none ∧
      (∀ k, k ≠ plugs.shaderType → member r k = member a k) ∧
      r.entries.length + 1 = a.entries.length := by
  refine ⟨a.erase plugs.shaderType, compute_erase env plugs path context a v hn hs ha hv, rfl,
    AList.lookup_erase _ _, fun k hk => AList.lookup_erase_ne hk, ?_⟩
  have hmem : plugs.shaderType ∈ a.keys := by
    have h : (a.lookup plugs.shaderType).isSome = true := by
      have hv' : a.lookup plugs.shaderType = some v := hv
      rw [hv']
      rfl
    exact AList.mem_keys.mp (AList.lookup_isSome.mp h)
  have hlen : (a.erase plugs.shaderType).keys.length = a.keys.length - 1 := by
    rw [AList.keys_erase]
    exact List.length_erase_of_mem hmem
  have hpos : 0 < a.keys.length := List.length_pos_of_mem hmem
  have e1 : (a.erase plugs.shaderType).keys.length = (a.erase plugs.shaderType).entries.length :=
    List.length_map _ _
  have e2 : a.keys.length = a.entries.length := List.length_map _ _
  omega

/-- Witness for C6: the shaded sample loses its shader and keeps one member. -/
theorem computeProcessedAttributes_removes_shader_witness :
    ∃ r, computeProcessedAttributes Sample.env (Sample.plugs "user:density" Mode.FalseColor)
        ["ball"] Sample.context Sample.shaded = Except.ok r ∧
      r = Sample.shaded.erase "gl:surface" ∧
      member r "gl:surface" = none ∧
      (∀ k, k ≠ "gl:surface" → member r k = member Sample.shaded k) ∧
      r.entries.length + 1 = 2 :=
  computeProcessedAttributes_removes_shader Sample.env
    (Sample.plugs "user:density" Mode.FalseColor) ["ball"] Sample.context Sample.shaded
    (Object.shader "plastic" "gl:surface" [] []) (by decide) (by decide) rfl rfl

/-- C7: when attributeName and shaderType are non-empty, the input has a member
named attributeName and `computeProcessedAttributes` returns, the result has
under the key shaderType a Shader named by shaderName, of type shaderType, with
no blind data and with exactly one parameter, keyed by shaderParameter and
holding the computed colour as a Color3fData; whatever the input had under
shaderType, also when attributeName and shaderType are equal. -/
theorem computeProcessedAttributes_assigns_shader (env : Env F D H R S)
    (plugs : PlugValues F S) (path : ScenePath) (context : Context)
    (a r : CompoundObject F D) (attr : Object F D)
    (hn : plugs.attributeName ≠ "") (hs : plugs.shaderType ≠ "")
    (ha : member a plugs.attributeName = some attr)
    (hr : computeProcessedAttributes env plugs path context a = Except.ok r) :
    ∃ color, computeColor env plugs attr = Except.ok color ∧
      member r plugs.shaderType =
        some (Object.shader plugs.shaderName plugs.shaderType
          [(plugs.shaderParameter, Object.color3fData color)] []) := by
  rw [compute_insert env plugs path context a attr hn hs ha] at hr
  cases hc : computeColor env plugs attr with
  | error e => rw [hc] at hr; cases hr
  | ok c =>
    rw [hc] at hr
    cases hr
    exact ⟨c, rfl, AList.lookup_insert _⟩

/-- Witness for C7: the shader itself is visualised (attributeName equal to
shaderType) in ShaderNodeColor mode and is replaced by the constant shader. -/
theorem computeProcessedAttributes_assigns_shader_witness :
    ∃ color, computeColor Sample.env (Sample.plugs "gl:surface" Mode.ShaderNodeColor)
        (Object.shader "plastic" "gl:surface" [] []) = Except.ok color ∧
      member
        (Sample.shaded.insert "gl:surface"
          (Object.shader "Constant" "gl:surface" [("Cs", Object.color3fData ⟨0, 0, 0⟩)] []))
        "gl:surface" =
        some (Object.shader "Constant" "gl:surface" [("Cs", Object.color3fData color)] []) :=
  computeProcessedAttributes_assigns_shader Sample.env
    (Sample.plugs "gl:surface" Mode.ShaderNodeColor) ["ball"] Sample.context Sample.shaded
    (Sample.shaded.insert "gl:surface"
      (Object.shader "Constant" "gl:surface" [("Cs", Object.color3fData ⟨0, 0, 0⟩)] []))
    (Object.shader "plastic" "gl:surface" [] []) (by decide) (by decide) rfl rfl

/-- C8: for an attribute of type FloatData, DoubleData, IntData or BoolData with
numeric value `v` (a Bool counting as 0 or 1), the normalised value is
`t = (v - min) / (max - min)` with no clamping. In Color mode the shader
parameter colour is `(t, t, t)`; in FalseColor mode it is the ramp evaluated at
`t`; and in Color mode with the default min 0 and max 1 it is `(v, v, v)`,
provided float arithmetic has `x - 0 = x` and `x / 1 = x`. This holds for all
min and max, in particular for min different from max. -/
theorem computeProcessedAttributes_numeric_colour (env : Env F D H R S)
    (plugs : PlugValues F S) (path : ScenePath) (context : Context)
    (a : CompoundObject F D) (attr : Object F D) (v : F)
    (hn : plugs.attributeName ≠ "") (hs : plugs.shaderType ≠ "")
    (ha : member a plugs.attributeName = some attr)
    (hv : numericValue env attr = some v) :
    (plugs.mode = Mode.Color →
      computeProcessedAttributes env plugs path context a =
        Except.ok (a.insert plugs.shaderType
          (colorShader plugs
            ⟨env.div (env.sub v plugs.min) (env.sub plugs.max plugs.min),
             env.div (env.sub v plugs.min) (env.sub plugs.max plugs.min),
             env.div (env.sub v plugs.min) (env.sub plugs.max plugs.min)⟩))) ∧
    (plugs.mode = Mode.FalseColor →
      computeProcessedAttributes env plugs path context a =
        Except.ok (a.insert plugs.shaderType
          (colorShader plugs
            (env.spline plugs.ramp
              (env.div (env.sub v plugs.min) (env.sub plugs.max plugs.min)))))) ∧
    (plugs.mode = Mode.Color → plugs.min = env.zero → plugs.max = env.one →
      (∀ x, env.sub x env.zero = x) → (∀ x, env.div x env.one = x) →
      computeProcessedAttributes env plugs path context a =
        Except.ok (a.insert plugs.shaderType (colorShader plugs ⟨v, v, v⟩))) := by
  have hc := compute_insert env plugs path context a attr hn hs ha
  have hvc := valueColor_numeric env plugs attr v hv
  refine ⟨?_, ?_, ?_⟩
  · intro hm
    rw [hc]
    simp only [computeColor, hm, reduceCtorEq, if_false, hvc, color3f]
    rfl
  · intro hm
    rw [hc]
    simp only [computeColor, hm, reduceCtorEq, if_false, hvc, if_true]
    rfl
  · intro hm hmin hmax hsub hdiv
    rw [hc]
    simp only [computeColor, hm, reduceCtorEq, if_false, hvc, color3f, hmin, hmax, hsub, hdiv]
    rfl

/-- Witness for C8: the integer attribute 3 with the default min 0 and max 1 gives
the colour (3, 3, 3), outside the unit interval. -/
theorem computeProcessedAttributes_numeric_colour_witness :
    computeProcessedAttributes Sample.env (Sample.plugs "user:density" Mode.Color) ["ball"]
        Sample.context Sample.density =
      Except.ok (Sample.density.insert "gl:surface"
        (colorShader (Sample.plugs "user:density" Mode.Color) ⟨3, 3, 3⟩)) :=
  (computeProcessedAttributes_numeric_colour Sample.env (Sample.plugs "user:density" Mode.Color)
    ["ball"] Sample.context Sample.density (Object.intData 3) 3 (by decide) (by decide) rfl
    rfl).2.2 rfl rfl rfl (fun x => sub_zero x) (fun x => div_one x)

/-- C9: in ShaderNodeColor mode `computeProcessedAttributes` does not raise, whatever
the type of the attribute, and the colour it assigns is the node colour of the
attribute: the shader is the attribute itself when it is a Shader, otherwise the
first member when the attribute is a non-empty ObjectVector whose first member
is a Shader; the colour is that shader's blind-data entry `gaffer:nodeColor` when
it is a Color3fData and black otherwise. The colour does not depend on min, max
and ramp. -/
theorem computeProcessedAttributes_shaderNodeColor (env : Env F D H R S)
    (plugs : PlugValues F S) (path : ScenePath) (context : Context)
    (a : CompoundObject F D) (attr : Object F D)
    (hn : plugs.attributeName ≠ "") (hs : plugs.shaderType ≠ "")
    (ha : member a plugs.attributeName = some attr)
    (hm : plugs.mode = Mode.ShaderNodeColor) :
    computeProcessedAttributes env plugs path context a =
        Except.ok (a.insert plugs.shaderType (colorShader plugs (nodeColorOf env attr))) ∧
    computeColor env plugs attr = Except.ok (nodeColorOf env attr) ∧
    ∀ (min max : F) (ramp : S),
      computeColor env { plugs with min := min, max := max, ramp := ramp } attr =
        computeColor env plugs attr := by
  have hcol : ∀ p : PlugValues F S, p.mode = Mode.ShaderNodeColor →
      computeColor env p attr = Except.ok (nodeColorOf env attr) := by
    intro p hp
    simp only [computeColor, hp, reduceCtorEq, if_false, if_true, shaderNodeColor_eq]
    rfl
  refine ⟨?_, hcol plugs hm, ?_⟩
  · rw [compute_insert env plugs path context a attr hn hs ha, hcol plugs hm]
    rfl
  · intro min max ramp
    rw [hcol plugs hm]
    exact hcol _ hm

/-- Witness for C9: a shader network whose first shader carries a node colour. -/
theorem computeProcessedAttributes_shaderNodeColor_witness :
    computeProcessedAttributes Sample.env (Sample.plugs "gl:surface" Mode.ShaderNodeColor)
        ["ball"] Sample.context Sample.networked =
      Except.ok (Sample.networked.insert "gl:surface"
        (colorShader (Sample.plugs "gl:surface" Mode.ShaderNodeColor) ⟨1 / 2, 1 / 4, 0⟩)) :=
  (computeProcessedAttributes_shaderNodeColor Sample.env
    (Sample.plugs "gl:surface" Mode.ShaderNodeColor) ["ball"] Sample.context Sample.networked
    (Object.objectVector
      [some Sample.nodeShader, some (Object.shader "noise" "gl:shader" [] [])])
    (by decide) (by decide) rfl rfl).1

/-- C13: whenever `computeProcessedAttributes` returns, a name other than the
shaderType plug value is a member of the result if and only if it is a member of
the input attributes, and then with the same value: looking the name up gives
the same in both. Only the member named shaderType can be added, replaced or
removed. -/
theorem computeProcessedAttributes_frame (env : Env F D H R S) (plugs : PlugValues F S)
    (path : ScenePath) (context : Context) (a r : CompoundObject F D) (k : String)
    (hr : computeProcessedAttributes env plugs path context a = Except.ok r)
    (hk : k ≠ plugs.shaderType) :
    member r k = member a k ∧ (k ∈ r ↔ k ∈ a) := by
  have h := member_of_ne_shaderType env plugs path context a r k hr hk
  refine ⟨h, ?_⟩
  have h' : r.lookup k = a.lookup k := h
  rw [← AList.lookup_isSome, ← AList.lookup_isSome, h']

/-- Witness for C13: visualising the density leaves it as it was, and adds no
member named `user:name`. -/
theorem computeProcessedAttributes_frame_witness :
    (member
        (Sample.density.insert "gl:surface"
          (colorShader (Sample.plugs "user:density" Mode.ShaderNodeColor) ⟨0, 0, 0⟩))
        "user:density" = member Sample.density "user:density") ∧
      ("user:density" ∈
          Sample.density.insert "gl:surface"
            (colorShader (Sample.plugs "user:density" Mode.ShaderNodeColor) ⟨0, 0, 0⟩) ↔
        "user:density" ∈ Sample.density) :=
  computeProcessedAttributes_frame Sample.env (Sample.plugs "user:density" Mode.ShaderNodeColor)
    ["ball"] Sample.context Sample.density
    (Sample.density.insert "gl:surface"
      (colorShader (Sample.plugs "user:density" Mode.ShaderNodeColor) ⟨0, 0, 0⟩))
    "user:density" rfl (by decide)

/-- C14: in Random mode `computeProcessedAttributes` does not raise, whatever the
type of the attribute, and the colour it assigns is determined by the hash of
the attribute: two runs in Random mode on attributes with equal hashes assign
the same colour, whatever the types of the two attributes, the scene paths, the
contexts and the values of min, max and ramp are. -/
theorem computeProcessedAttributes_random (env : Env F D H R S)
    (plugs plugs' : PlugValues F S) (path path' : ScenePath) (context context' : Context)
    (a a' : CompoundObject F D) (attr attr' : Object F D)
    (hn : plugs.attributeName ≠ "") (hs : plugs.shaderType ≠ "")
    (hn' : plugs'.attributeName ≠ "") (hs' : plugs'.shaderType ≠ "")
    (ha : member a plugs.attributeName = some attr)
    (ha' : member a' plugs'.attributeName = some attr')
    (hm : plugs.mode = Mode.Random) (hm' : plugs'.mode = Mode.Random)
    (hh : env.hash attr = env.hash attr') :
    ∃ color,
      computeProcessedAttributes env plugs path context a =
        Except.ok (a.insert plugs.shaderType (colorShader plugs color)) ∧
      computeProcessedAttributes env plugs' path' context' a' =
        Except.ok (a'.insert plugs'.shaderType (colorShader plugs' color)) := by
  refine ⟨randomColor env attr, ?_, ?_⟩
  · rw [compute_insert env plugs path context a attr hn hs ha]
    simp only [computeColor, hm, if_true]
    rfl
  · rw [compute_insert env plugs' path' context' a' attr' hn' hs' ha']
    simp only [computeColor, hm', if_true, randomColor, hh]
    rfl

/-- Witness for C14: an integer and a string with the same hash, looked at under
different ranges, get the same colour. -/
theorem computeProcessedAttributes_random_witness :
    ∃ color,
      computeProcessedAttributes Sample.env (Sample.plugs "user:density" Mode.Random) ["ball"]
          Sample.context Sample.density =
        Except.ok (Sample.density.insert "gl:surface"
          (colorShader (Sample.plugs "user:density" Mode.Random) color)) ∧
      computeProcessedAttributes Sample.env
          (Sample.rangedPlugs "user:name" Mode.Random) ["group", "cube"]
          ⟨[("frame", "2")]⟩ (AList.singleton "user:name" (Object.stringData "abc")) =
        Except.ok ((AList.singleton "user:name" (Object.stringData "abc")).insert "gl:surface"
          (colorShader (Sample.rangedPlugs "user:name" Mode.Random) color)) :=
  computeProcessedAttributes_random Sample.env (Sample.plugs "user:density" Mode.Random)
    (Sample.rangedPlugs "user:name" Mode.Random) ["ball"]
    ["group", "cube"] Sample.context ⟨[("frame", "2")]⟩ Sample.density
    (AList.singleton "user:name" (Object.stringData "abc")) (Object.intData 3)
    (Object.stringData "abc") (by decide) (by decide) (by decide) (by decide) rfl rfl rfl rfl
    rfl

end GafferScene

/-! ## Properties of CompoundNodule -/

namespace GafferUI

open IECore

variable {F D : Type}

variable {P N : Type}

/-- The loop of the constructor adds the nodules made, in order, and leaves the
settings of the row as they are. -/
theorem addNodules_eq (env : UIEnv F P N) (children : List P) (row : LinearContainer F P N) :
    addNodules env row children =
      { row with children := row.children ++ children.filterMap env.create } := by
  induction children generalizing row with
  | nil => simp [addNodules]
  | cons child rest ih =>
    cases hc : env.create child with
    | none => simp [addNodules, hc, ih]
    | some nodule => simp [addNodules, hc, ih, LinearContainer.addChild]

/-- The plugs of the nodules made for a list of plugs are among those plugs, in
their order. -/
theorem plugs_filterMap_create (env : UIEnv F P N)
    (hcreate : ∀ p n, env.create p = some n → n.plug = p) (children : List P) :
    ((children.filterMap env.create).map Nodule.plug).Sublist children := by
  induction children with
  | nil => simp
  | cons child rest ih =>
    cases hc : env.create child with
    | none =>
      rw [List.filterMap_cons_none hc]
      exact List.Sublist.cons _ ih
    | some nodule =>
      rw [List.filterMap_cons_some hc, List.map_cons, hcreate child nodule hc]
      exact List.Sublist.cons₂ _ ih

/-- No nodule is found for a plug exactly when no nodule of the row has it. -/
theorem firstNodule_eq_none_iff [DecidableEq P] (plug : P) (l : List (Nodule P N)) :
    firstNodule plug l = none ↔ plug ∉ l.map Nodule.plug := by
  induction l with
  | nil => simp [firstNodule]
  | cons n rest ih =>
    by_cases h : n.plug = plug
    · simp [firstNodule, h]
    · have h' : ¬ plug = n.plug := fun e => h e.symm
      simp [firstNodule, h, h', ih]

/-- A nodule found for a plug is a nodule of that plug. -/
theorem firstNodule_plug [DecidableEq P] (plug : P) (l : List (Nodule P N)) (n : Nodule P N)
    (h : firstNodule plug l = some n) : n.plug = plug := by
  induction l with
  | nil => simp [firstNodule] at h
  | cons m rest ih =>
    by_cases hm : m.plug = plug
    · simp only [firstNodule, hm, if_true, Option.some.injEq] at h
      rw [← h]
      exact hm
    · simp only [firstNodule, hm, if_false] at h
      exact ih h

/-- The loop of `childRemoved` leaves a sublist. -/
theorem removeFirstNodule_sublist [DecidableEq P] (plug : P) (l : List (Nodule P N)) :
    (removeFirstNodule plug l).Sublist l := by
  induction l with
  | nil => exact List.Sublist.refl _
  | cons n rest ih =>
    by_cases h : n.plug = plug
    · simp only [removeFirstNodule, h, if_true]
      exact List.sublist_cons_self _ _
    · simp only [removeFirstNodule, h, if_false]
      exact List.Sublist.cons₂ _ ih

/-- With at most one nodule per plug, the loop of `childRemoved` removes the
nodules of the plug and no other. -/
theorem removeFirstNodule_eq_filter [DecidableEq P] (plug : P) (l : List (Nodule P N))
    (hl : (l.map Nodule.plug).Nodup) :
    removeFirstNodule plug l = l.filter (fun n => decide (n.plug ≠ plug)) := by
  induction l with
  | nil => rfl
  | cons n rest ih =>
    rw [List.map_cons, List.nodup_cons] at hl
    by_cases h : n.plug = plug
    · have hrest : ∀ m ∈ rest, decide (m.plug ≠ plug) = true := by
        intro m hm
        have : m.plug ≠ plug := by
          intro e
          apply hl.1
          rw [h, ← e]
          exact List.mem_map_of_mem _ hm
        simpa using this
      simp only [removeFirstNodule, h, if_true, ne_eq, not_true_eq_false, decide_False,
        Bool.false_eq_true, not_false_eq_true, List.filter_cons_of_neg]
      exact (List.filter_eq_self.mpr hrest).symm
    · simp only [removeFirstNodule, h, if_false, ne_eq, not_false_eq_true, decide_True,
        List.filter_cons_of_pos]
      rw [ih hl.2]

/-- What `directionMetadata` gives: by the string registered, or the default. -/
theorem directionMetadata_string (metadata : PlugMetadata F D) (defaultValue : Direction)
    (str : String) (h : metadata "compoundNodule:direction" = some (Object.stringData str)) :
    directionMetadata metadata defaultValue =
      if str = "increasing" then Direction.Increasing else Direction.Decreasing := by
  simp [directionMetadata, valueStringData, g_directionKey, h]

/-- Without a string registered `directionMetadata` gives the default. -/
theorem directionMetadata_absent (metadata : PlugMetadata F D) (defaultValue : Direction)
    (h : ∀ str, metadata "compoundNodule:direction" ≠ some (Object.stringData str)) :
    directionMetadata metadata defaultValue = defaultValue := by
  unfold directionMetadata valueStringData g_directionKey
  cases hm : metadata "compoundNodule:direction" with
  | none => rfl
  | some o =>
    cases o with
    | stringData str => exact absurd hm (h str)
    | _ => rfl

/-- The result of `directionMetadata` is valid when the default is. -/
theorem directionMetadata_valid (metadata : PlugMetadata F D) (defaultValue : Direction)
    (h : defaultValue ≠ Direction.InvalidDirection) :
    directionMetadata metadata defaultValue ≠ Direction.InvalidDirection := by
  unfold directionMetadata
  cases valueStringData metadata g_directionKey with
  | none => exact h
  | some str => by_cases hs : str = "increasing" <;> simp [hs]

/-- The row the constructor makes. -/
theorem new_row (env : UIEnv F P N) (metadata : PlugMetadata F D) (plug : P)
    (children : List P) (o : Orientation) (s : F) (d : Direction) :
    (CompoundNodule.new env metadata plug children o s d).m_row =
      ⟨"row", orientationMetadata metadata o, Alignment.Centre, spacingMetadata metadata s,
        if directionMetadata metadata d = Direction.InvalidDirection then
          if orientationMetadata metadata o = Orientation.X then Direction.Increasing
          else Direction.Decreasing
        else directionMetadata metadata d,
        children.filterMap env.create⟩ := by
  simp [CompoundNodule.new, addNodules_eq]

/-- The direction the handler stores under the direction and orientation keys. -/
theorem plugMetadataChanged_direction (env : UIEnv F P N) (metadata : PlugMetadata F D)
    (self : CompoundNodule F P N) (nodeTypeId : Nat) (plugPath key : String) (plug : Option P)
    (ha : env.affectedByChange self.plug nodeTypeId plugPath plug = true)
    (hk : key = "compoundNodule:direction" ∨ key = "compoundNodule:orientation") :
    (self.plugMetadataChanged env metadata nodeTypeId plugPath key plug).m_row.direction =
      directionMetadata metadata
        (if (self.plugMetadataChanged env metadata nodeTypeId plugPath key plug).m_row.orientation
            = Orientation.X then Direction.Increasing else Direction.Decreasing) := by
  rcases hk with rfl | rfl <;>
    simp [CompoundNodule.plugMetadataChanged, ha, g_orientationKey, g_spacingKey,
      g_directionKey, LinearContainer.setOrientation, LinearContainer.setDirection,
      LinearContainer.getOrientation]

/-- Under any other key, or when the change does not affect the nodule, the handler
leaves the direction. -/
theorem plugMetadataChanged_direction_kept (env : UIEnv F P N) (metadata : PlugMetadata F D)
    (self : CompoundNodule F P N) (nodeTypeId : Nat) (plugPath key : String) (plug : Option P)
    (hk : env.affectedByChange self.plug nodeTypeId plugPath plug = false ∨
      (key ≠ "compoundNodule:direction" ∧ key ≠ "compoundNodule:orientation")) :
    (self.plugMetadataChanged env metadata nodeTypeId plugPath key plug).m_row.direction =
      self.m_row.direction := by
  rcases hk with ha | ⟨h1, h2⟩
  · simp [CompoundNodule.plugMetadataChanged, ha]
  · by_cases ha : env.affectedByChange self.plug nodeTypeId plugPath plug = false
    · simp [CompoundNodule.plugMetadataChanged, ha]
    · by_cases hs : key = "compoundNodule:spacing" <;>
        simp [CompoundNodule.plugMetadataChanged, ha, g_orientationKey, g_spacingKey,
          g_directionKey, h1, h2, hs, LinearContainer.setSpacing]

/-- The handler never changes the children of the row. -/
theorem plugMetadataChanged_children (env : UIEnv F P N) (metadata : PlugMetadata F D)
    (self : CompoundNodule F P N) (nodeTypeId : Nat) (plugPath key : String) (plug : Option P) :
    (self.plugMetadataChanged env metadata nodeTypeId plugPath key plug).m_row.children =
      self.m_row.children := by
  unfold CompoundNodule.plugMetadataChanged
  dsimp only
  split_ifs <;> rfl

/-- C10: `orientationMetadata` always returns: the supplied default when the plug
has no string metadata under `compoundNodule:orientation`, X when the string is
exactly `x`, Y when it is exactly `y`, and Z for every other string, such as
`z`, `X` and the empty string. -/
theorem orientationMetadata_cases (metadata : PlugMetadata F D) (defaultValue : Orientation) :
    ((∀ s, metadata "compoundNodule:orientation" ≠ some (Object.stringData s)) →
      orientationMetadata metadata defaultValue = defaultValue) ∧
    (metadata "compoundNodule:orientation" = some (Object.stringData "x") →
      orientationMetadata metadata defaultValue = Orientation.X) ∧
    (metadata "compoundNodule:orientation" = some (Object.stringData "y") →
      orientationMetadata metadata defaultValue = Orientation.Y) ∧
    (∀ s, metadata "compoundNodule:orientation" = some (Object.stringData s) →
      s ≠ "x" → s ≠ "y" → orientationMetadata metadata defaultValue = Orientation.Z) ∧
    (∀ s, s = "z" ∨ s = "X" ∨ s = "" →
      metadata "compoundNodule:orientation" = some (Object.stringData s) →
      orientationMetadata metadata defaultValue = Orientation.Z) := by
  have hZ : ∀ s, metadata "compoundNodule:orientation" = some (Object.stringData s) →
      s ≠ "x" → s ≠ "y" → orientationMetadata metadata defaultValue = Orientation.Z := by
    intro s h hx hy
    simp [orientationMetadata, valueStringData, g_orientationKey, h, hx, hy]
  refine ⟨?_, ?_, ?_, hZ, ?_⟩
  · intro h
    unfold orientationMetadata valueStringData g_orientationKey
    cases hm : metadata "compoundNodule:orientation" with
    | none => rfl
    | some o =>
      cases o with
      | stringData s => exact absurd hm (h s)
      | _ => rfl
  · intro h
    simp [orientationMetadata, valueStringData, g_orientationKey, h]
  · intro h
    simp [orientationMetadata, valueStringData, g_orientationKey, h]
  · intro s hs h
    rcases hs with rfl | rfl | rfl <;> exact hZ _ h (by decide) (by decide)

/-- Witness for C10: an upper-case `X` gives Z, and a float under the key gives the
default. -/
theorem orientationMetadata_cases_witness :
    orientationMetadata (Sample.orientationOnly "X") Orientation.Y = Orientation.Z ∧
    orientationMetadata
        (fun _ => some (Object.floatData (1 : Rat)) : PlugMetadata Rat Rat) Orientation.Y =
      Orientation.Y :=
  ⟨(orientationMetadata_cases (Sample.orientationOnly "X") Orientation.Y).2.2.2.1 "X" rfl
      (by decide) (by decide),
   (orientationMetadata_cases (fun _ => some (Object.floatData (1 : Rat))) Orientation.Y).1
      (fun _ h => Object.noConfusion (Option.some.inj h))⟩

/-- C11: the direction of the row is never `InvalidDirection`: not after
construction, for every constructor argument and every metadata, and not after
a call of `plugMetadataChanged` on a nodule whose direction was valid. A string
`increasing` under `compoundNodule:direction` gives Increasing and any other
string Decreasing; without a string there, an `InvalidDirection` argument of the
constructor, and the default of the handler, give Increasing when the
orientation the row then has is X and Decreasing otherwise, and a valid
argument of the constructor is kept. -/
theorem direction_never_invalid (env : UIEnv F P N) (metadata : PlugMetadata F D) :
    (∀ (plug : P) (children : List P) (o : Orientation) (s : F) (d : Direction),
      (CompoundNodule.new env metadata plug children o s d).m_row.direction ≠
          Direction.InvalidDirection ∧
      (CompoundNodule.new env metadata plug children o s d).m_row.orientation =
          orientationMetadata metadata o ∧
      (metadata "compoundNodule:direction" = some (Object.stringData "increasing") →
        (CompoundNodule.new env metadata plug children o s d).m_row.direction =
          Direction.Increasing) ∧
      (∀ str, metadata "compoundNodule:direction" = some (Object.stringData str) →
        str ≠ "increasing" →
        (CompoundNodule.new env metadata plug children o s d).m_row.direction =
          Direction.Decreasing) ∧
      ((∀ str, metadata "compoundNodule:direction" ≠ some (Object.stringData str)) →
        (CompoundNodule.new env metadata plug children o s d).m_row.direction =
          if d = Direction.InvalidDirection then
            if (CompoundNodule.new env metadata plug children o s d).m_row.orientation =
                Orientation.X then Direction.Increasing
            else Direction.Decreasing
          else d)) ∧
    (∀ (self : CompoundNodule F P N) (nodeTypeId : Nat) (plugPath key : String)
        (plug : Option P),
      (self.m_row.direction ≠ Direction.InvalidDirection →
        (self.plugMetadataChanged env metadata nodeTypeId plugPath key plug).m_row.direction ≠
          Direction.InvalidDirection) ∧
      (env.affectedByChange self.plug nodeTypeId plugPath plug = true →
        key = "compoundNodule:direction" ∨ key = "compoundNodule:orientation" →
        (self.plugMetadataChanged env metadata nodeTypeId plugPath key plug).m_row.direction ≠
            Direction.InvalidDirection ∧
        (metadata "compoundNodule:direction" = some (Object.stringData "increasing") →
          (self.plugMetadataChanged env metadata nodeTypeId plugPath key plug).m_row.direction =
            Direction.Increasing) ∧
        (∀ str, metadata "compoundNodule:direction" = some (Object.stringData str) →
          str ≠ "increasing" →
          (self.plugMetadataChanged env metadata nodeTypeId plugPath key plug).m_row.direction =
            Direction.Decreasing) ∧
        ((∀ str, metadata "compoundNodule:direction" ≠ some (Object.stringData str)) →
          (self.plugMetadataChanged env metadata nodeTypeId plugPath key plug).m_row.direction =
            if (self.plugMetadataChanged env metadata nodeTypeId plugPath key
                  plug).m_row.orientation = Orientation.X then Direction.Increasing
            else Direction.Decreasing))) := by
  have hdefault : ∀ o : Orientation,
      (if o = Orientation.X then Direction.Increasing else Direction.Decreasing) ≠
        Direction.InvalidDirection := by
    intro o
    by_cases h : o = Orientation.X <;> simp [h]
  constructor
  · intro plug children o s d
    rw [new_row]
    dsimp only
    refine ⟨?_, rfl, ?_, ?_, ?_⟩
    · by_cases h : directionMetadata metadata d = Direction.InvalidDirection
      · rw [if_pos h]
        exact hdefault _
      · rw [if_neg h]
        exact h
    · intro h
      rw [directionMetadata_string metadata d "increasing" h]
      simp
    · intro str h hne
      rw [directionMetadata_string metadata d str h]
      simp [hne]
    · intro h
      rw [directionMetadata_absent metadata d h]
  · intro self nodeTypeId plugPath key plug
    constructor
    · intro hvalid
      by_cases ha : env.affectedByChange self.plug nodeTypeId plugPath plug = true
      · by_cases hk : key = "compoundNodule:direction" ∨ key = "compoundNodule:orientation"
        · rw [plugMetadataChanged_direction env metadata self nodeTypeId plugPath key plug ha hk]
          exact directionMetadata_valid metadata _ (hdefault _)
        · rw [plugMetadataChanged_direction_kept env metadata self nodeTypeId plugPath key plug
            (Or.inr ⟨fun h => hk (Or.inl h), fun h => hk (Or.inr h)⟩)]
          exact hvalid
      · rw [plugMetadataChanged_direction_kept env metadata self nodeTypeId plugPath key plug
          (Or.inl (by simpa using ha))]
        exact hvalid
    · intro ha hk
      have hd := plugMetadataChanged_direction env metadata self nodeTypeId plugPath key plug ha hk
      refine ⟨?_, ?_, ?_, ?_⟩
      · rw [hd]
        exact directionMetadata_valid metadata _ (hdefault _)
      · intro h
        rw [hd, directionMetadata_string metadata _ "increasing" h]
        simp
      · intro str h hne
        rw [hd, directionMetadata_string metadata _ str h]
        simp [hne]
      · intro h
        rw [hd, directionMetadata_absent metadata _ h]

/-- Witness for C11: made vertical without metadata and without a direction, the
row is Decreasing; an orientation change to `x` read by the handler makes it
Increasing. -/
theorem direction_never_invalid_witness :
    Sample.compound.m_row.direction = Direction.Decreasing ∧
    (Sample.compound.plugMetadataChanged Sample.uiEnv (Sample.orientationOnly "x") 0 "in"
        "compoundNodule:orientation" (some "in")).m_row.direction = Direction.Increasing :=
  ⟨((direction_never_invalid Sample.uiEnv Sample.noMetadata).1 "in" ["in.a", "hidden", "in.b"]
      Orientation.Y 1 Direction.InvalidDirection).2.2.2.2
      (fun _ h => Option.noConfusion h),
   (((direction_never_invalid Sample.uiEnv (Sample.orientationOnly "x")).2 Sample.compound 0
      "in" "compoundNodule:orientation" (some "in")).2 rfl (Or.inr rfl)).2.2.2
      (fun _ h => Option.noConfusion h)⟩

/-- C12: `plugMetadataChanged` changes only what the key names. When the change
does not affect the nodule, or the key is none of `compoundNodule:orientation`,
`compoundNodule:spacing`, `compoundNodule:direction`, the nodule is as before.
Under the spacing key the orientation and the direction are as before; under
the direction key the orientation and the spacing are; under the orientation
key the spacing is, and the direction stored is read with the default derived
from the orientation just stored. The children of the row, its name and
alignment and the plug of the nodule are as before in every case. -/
theorem plugMetadataChanged_frame (env : UIEnv F P N) (metadata : PlugMetadata F D)
    (self : CompoundNodule F P N) (nodeTypeId : Nat) (plugPath key : String)
    (plug : Option P) :
    (env.affectedByChange self.plug nodeTypeId plugPath plug = false →
      self.plugMetadataChanged env metadata nodeTypeId plugPath key plug = self) ∧
    (key ≠ "compoundNodule:orientation" → key ≠ "compoundNodule:spacing" →
      key ≠ "compoundNodule:direction" →
      self.plugMetadataChanged env metadata nodeTypeId plugPath key plug = self) ∧
    (key = "compoundNodule:spacing" →
      (self.plugMetadataChanged env metadata nodeTypeId plugPath key plug).m_row.orientation =
          self.m_row.orientation ∧
      (self.plugMetadataChanged env metadata nodeTypeId plugPath key plug).m_row.direction =
          self.m_row.direction) ∧
    (key = "compoundNodule:direction" →
      (self.plugMetadataChanged env metadata nodeTypeId plugPath key plug).m_row.orientation =
          self.m_row.orientation ∧
      (self.plugMetadataChanged env metadata nodeTypeId plugPath key plug).m_row.spacing =
          self.m_row.spacing) ∧
    (key = "compoundNodule:orientation" →
      (self.plugMetadataChanged env metadata nodeTypeId plugPath key plug).m_row.spacing =
          self.m_row.spacing) ∧
    (key = "compoundNodule:orientation" →
      env.affectedByChange self.plug nodeTypeId plugPath plug = true →
      (self.plugMetadataChanged env metadata nodeTypeId plugPath key plug).m_row.orientation =
          orientationMetadata metadata Orientation.X ∧
      (self.plugMetadataChanged env metadata nodeTypeId plugPath key plug).m_row.direction =
          directionMetadata metadata
            (if orientationMetadata metadata Orientation.X = Orientation.X then
              Direction.Increasing
            else Direction.Decreasing)) ∧
    (self.plugMetadataChanged env metadata nodeTypeId plugPath key plug).m_row.children =
        self.m_row.children ∧
    (self.plugMetadataChanged env metadata nodeTypeId plugPath key plug).m_row.name =
        self.m_row.name ∧
    (self.plugMetadataChanged env metadata nodeTypeId plugPath key plug).m_row.alignment =
        self.m_row.alignment ∧
    (self.plugMetadataChanged env metadata nodeTypeId plugPath key plug).plug = self.plug := by
  refine ⟨?_, ?_, ?_, ?_, ?_, ?_, plugMetadataChanged_children env metadata self nodeTypeId
    plugPath key plug, ?_, ?_, ?_⟩
  · intro ha
    simp [CompoundNodule.plugMetadataChanged, ha]
  · intro h1 h2 h3
    unfold CompoundNodule.plugMetadataChanged
    simp only [g_orientationKey, g_spacingKey, g_directionKey, h1, h2, h3, if_false, or_self]
    split_ifs <;> rfl
  · rintro rfl
    by_cases ha : env.affectedByChange self.plug nodeTypeId plugPath plug = false <;>
      simp [CompoundNodule.plugMetadataChanged, ha, g_orientationKey, g_spacingKey,
        g_directionKey, LinearContainer.setSpacing]
  · rintro rfl
    by_cases ha : env.affectedByChange self.plug nodeTypeId plugPath plug = false <;>
      simp [CompoundNodule.plugMetadataChanged, ha, g_orientationKey, g_spacingKey,
        g_directionKey, LinearContainer.setDirection]
  · rintro rfl
    by_cases ha : env.affectedByChange self.plug nodeTypeId plugPath plug = false <;>
      simp [CompoundNodule.plugMetadataChanged, ha, g_orientationKey, g_spacingKey,
        g_directionKey, LinearContainer.setDirection, LinearContainer.setOrientation]
  · rintro rfl ha
    simp [CompoundNodule.plugMetadataChanged, ha, g_orientationKey, g_spacingKey,
      g_directionKey, LinearContainer.setDirection, LinearContainer.setOrientation,
      LinearContainer.getOrientation]
  · unfold CompoundNodule.plugMetadataChanged
    dsimp only
    split_ifs <;> rfl
  · unfold CompoundNodule.plugMetadataChanged
    dsimp only
    split_ifs <;> rfl
  · unfold CompoundNodule.plugMetadataChanged
    dsimp only
    split_ifs <;> rfl

/-- Witness for C12: a change under the spacing key leaves the orientation and the
direction of the sample nodule, and a change under an unrelated key leaves the
nodule. -/
theorem plugMetadataChanged_frame_witness :
    ((Sample.compound.plugMetadataChanged Sample.uiEnv (Sample.orientationOnly "x") 0 "in"
          "compoundNodule:spacing" (some "in")).m_row.orientation =
        Sample.compound.m_row.orientation ∧
      (Sample.compound.plugMetadataChanged Sample.uiEnv (Sample.orientationOnly "x") 0 "in"
          "compoundNodule:spacing" (some "in")).m_row.direction =
        Sample.compound.m_row.direction) ∧
    Sample.compound.plugMetadataChanged Sample.uiEnv (Sample.orientationOnly "x") 0 "in"
        "nodule:color" (some "in") = Sample.compound :=
  ⟨(plugMetadataChanged_frame Sample.uiEnv (Sample.orientationOnly "x") Sample.compound 0 "in"
      "compoundNodule:spacing" (some "in")).2.2.1 rfl,
   (plugMetadataChanged_frame Sample.uiEnv (Sample.orientationOnly "x") Sample.compound 0 "in"
      "nodule:color" (some "in")).2.1 (by decide) (by decide) (by decide)⟩

/-- C15: provided `Nodule::create` gives for a plug a nodule of that plug or none,
the row holds at most one nodule per plug and every operation keeps it so. After
construction from pairwise different child plugs the plugs of the nodules are
among the child plugs, in their order, each at most once. `childAdded` keeps the
invariant and adds nothing when the child is not a plug, when a nodule for the
plug exists, or when `Nodule::create` gives none; a second call with the same
child changes nothing. `childRemoved` keeps the invariant, does nothing for a
child that is not a plug, and for a plug removes the nodules of that plug and no
other, keeping the order of the others, after which `nodule` gives null for the
plug. `plugMetadataChanged` keeps the invariant. -/
theorem row_one_nodule_per_plug [DecidableEq P] (env : UIEnv F P N)
    (hcreate : ∀ p n, env.create p = some n → n.plug = p) :
    (∀ (metadata : PlugMetadata F D) (plug : P) (children : List P) (o : Orientation) (s : F)
        (d : Direction), children.Nodup →
      oneNodulePerPlug (CompoundNodule.new env metadata plug children o s d) ∧
      ((CompoundNodule.new env metadata plug children o s d).m_row.children.map
        Nodule.plug).Sublist children) ∧
    (∀ (self : CompoundNodule F P N) (parent child : GraphComponent P),
      oneNodulePerPlug self → oneNodulePerPlug (self.childAdded env parent child)) ∧
    (∀ (self : CompoundNodule F P N) (parent : GraphComponent P) (name : String),
      self.childAdded env parent (GraphComponent.other name) = self) ∧
    (∀ (self : CompoundNodule F P N) (parent : GraphComponent P) (plug : P),
      (self.nodule plug).isSome = true →
      self.childAdded env parent (GraphComponent.plug plug) = self) ∧
    (∀ (self : CompoundNodule F P N) (parent : GraphComponent P) (plug : P),
      env.create plug = none →
      self.childAdded env parent (GraphComponent.plug plug) = self) ∧
    (∀ (self : CompoundNodule F P N) (parent parent' child : GraphComponent P),
      (self.childAdded env parent child).childAdded env parent' child =
        self.childAdded env parent child) ∧
    (∀ (self : CompoundNodule F P N) (parent : GraphComponent P) (name : String),
      self.childRemoved parent (GraphComponent.other name) = self) ∧
    (∀ (self : CompoundNodule F P N) (parent : GraphComponent P) (plug : P),
      oneNodulePerPlug self →
      oneNodulePerPlug (self.childRemoved parent (GraphComponent.plug plug)) ∧
      (self.childRemoved parent (GraphComponent.plug plug)).m_row.children =
        self.m_row.children.filter (fun n => decide (n.plug ≠ plug)) ∧
      (self.childRemoved parent (GraphComponent.plug plug)).nodule plug = none) ∧
    (∀ (metadata : PlugMetadata F D) (self : CompoundNodule F P N) (nodeTypeId : Nat)
        (plugPath key : String) (plug : Option P),
      oneNodulePerPlug self →
      oneNodulePerPlug (self.plugMetadataChanged env metadata nodeTypeId plugPath key plug)) := by
  have hnop : ∀ (self : CompoundNodule F P N) (parent : GraphComponent P) (plug : P),
      (self.nodule plug).isSome = true →
      self.childAdded env parent (GraphComponent.plug plug) = self := by
    intro self parent plug h
    simp [CompoundNodule.childAdded, runTimeCastPlug, h]
  refine ⟨?_, ?_, ?_, hnop, ?_, ?_, ?_, ?_, ?_⟩
  · intro metadata plug children o s d hnd
    have hsub := plugs_filterMap_create env hcreate children
    unfold oneNodulePerPlug
    rw [new_row]
    exact ⟨hsub.nodup hnd, hsub⟩
  · intro self parent child hinv
    cases child with
    | other name => exact hinv
    | plug p =>
      cases hn : self.nodule p with
      | some n =>
        rw [hnop self parent p (by rw [hn]; rfl)]
        exact hinv
      | none =>
        cases hc : env.create p with
        | none =>
          have : self.childAdded env parent (GraphComponent.plug p) = self := by
            simp [CompoundNodule.childAdded, runTimeCastPlug, hn, hc]
          rw [this]
          exact hinv
        | some n =>
          have hnot : p ∉ self.m_row.children.map Nodule.plug :=
            (firstNodule_eq_none_iff p _).mp hn
          have hp : n.plug = p := hcreate p n hc
          have : (self.childAdded env parent (GraphComponent.plug p)).m_row.children =
              self.m_row.children ++ [n] := by
            simp [CompoundNodule.childAdded, runTimeCastPlug, hn, hc, LinearContainer.addChild]
          unfold oneNodulePerPlug at hinv ⊢
          rw [this, List.map_append, List.map_singleton, hp]
          exact List.Nodup.append hinv (List.nodup_singleton p)
            (by
              intro x hx hx'
              rw [List.mem_singleton] at hx'
              exact hnot (hx' ▸ hx))
  · intro self parent name
    rfl
  · intro self parent plug hc
    by_cases h : (self.nodule plug).isSome = true
    · exact hnop self parent plug h
    · simp [CompoundNodule.childAdded, runTimeCastPlug, h, hc]
  · intro self parent parent' child
    cases child with
    | other name => rfl
    | plug p =>
      cases hn : self.nodule p with
      | some n =>
        have h1 := hnop self parent p (by rw [hn]; rfl)
        rw [h1]
        exact hnop self parent' p (by rw [hn]; rfl)
      | none =>
        cases hc : env.create p with
        | none =>
          have : ∀ q, self.childAdded env q (GraphComponent.plug p) = self := by
            intro q
            simp [CompoundNodule.childAdded, runTimeCastPlug, hn, hc]
          rw [this parent, this parent']
        | some n =>
          have hp : n.plug = p := hcreate p n hc
          have hch : (self.childAdded env parent (GraphComponent.plug p)).m_row.children =
              self.m_row.children ++ [n] := by
            simp [CompoundNodule.childAdded, runTimeCastPlug, hn, hc, LinearContainer.addChild]
          apply hnop
          cases hf : (self.childAdded env parent (GraphComponent.plug p)).nodule p with
          | some m => rfl
          | none =>
            have hnot := (firstNodule_eq_none_iff p _).mp hf
            rw [hch, List.map_append, List.map_singleton, hp] at hnot
            exact absurd (List.mem_append_right _ (List.mem_singleton_self p)) hnot
  · intro self parent name
    rfl
  · intro self parent plug hinv
    have hch : (self.childRemoved parent (GraphComponent.plug plug)).m_row.children =
        removeFirstNodule plug self.m_row.children := rfl
    have hfilter := removeFirstNodule_eq_filter plug self.m_row.children hinv
    refine ⟨?_, hch.trans hfilter, ?_⟩
    · unfold oneNodulePerPlug
      rw [hch]
      exact ((removeFirstNodule_sublist plug self.m_row.children).map Nodule.plug).nodup hinv
    · unfold CompoundNodule.nodule
      rw [hch, hfilter, firstNodule_eq_none_iff]
      intro hmem
      obtain ⟨m, hm, hmp⟩ := List.mem_map.mp hmem
      have := (List.mem_filter.mp hm).2
      simp [hmp] at this
  · intro metadata self nodeTypeId plugPath key plug hinv
    unfold oneNodulePerPlug
    rw [plugMetadataChanged_children]
    exact hinv

/-- Witness for C15: the sample nodule has a nodule for `in.a` and `in.b` and none
for `hidden`; after `in.a` is removed no nodule is found for it, and adding
`in.c` twice is adding it once. -/
theorem row_one_nodule_per_plug_witness :
    (oneNodulePerPlug Sample.compound ∧
      (Sample.compound.m_row.children.map Nodule.plug).Sublist ["in.a", "hidden", "in.b"]) ∧
    (Sample.compound.childRemoved (GraphComponent.plug "in")
        (GraphComponent.plug "in.a")).nodule "in.a" = none ∧
    (Sample.compound.childAdded Sample.uiEnv (GraphComponent.plug "in")
          (GraphComponent.plug "in.c")).childAdded Sample.uiEnv (GraphComponent.plug "in")
          (GraphComponent.plug "in.c") =
      Sample.compound.childAdded Sample.uiEnv (GraphComponent.plug "in")
        (GraphComponent.plug "in.c") :=
  have hcreate : ∀ p n, Sample.uiEnv.create p = some n → n.plug = p := by
    intro p n h
    simp only [Sample.uiEnv] at h
    split at h
    · cases h
    · cases h
      rfl
  have hnew := (@row_one_nodule_per_plug Rat Rat String String _ Sample.uiEnv hcreate).1
    Sample.noMetadata "in" ["in.a", "hidden", "in.b"] Orientation.Y 1
    Direction.InvalidDirection (by decide)
  ⟨hnew,
   ((@row_one_nodule_per_plug Rat Rat String String _ Sample.uiEnv hcreate).2.2.2.2.2.2.2.1
      Sample.compound (GraphComponent.plug "in") "in.a" hnew.1).2.2,
   (@row_one_nodule_per_plug Rat Rat String String _ Sample.uiEnv hcreate).2.2.2.2.2.1
      Sample.compound (GraphComponent.plug "in") (GraphComponent.plug "in")
      (GraphComponent.plug "in.c")⟩

end GafferUI
